import Mathlib

/-!
Verification development for the Microradar container observability agent.

The definitions below are shallow embeddings of the repository code:

* kernel eBPF probes of `container_trace.c` (container lifecycle tracking)
  over association-list models of the BPF maps;
* the user-space monitor (`pkg/ebpf/monitor.go`): start/stop lifecycle,
  metric copying, network-metric aggregation;
* the sample-ring event handlers of `pkg/ebpf/processor.go`;
* the configuration loader (`pkg/config/config.go`);
* the runtime resolver (`runtime_detector.go`);
* the daemon HTTP metrics handler (`daemon_server.go`);
* the bounded object pool of `pkg/ebpf/memory.go`.

Machine integers are modelled as `Nat` (wrap-around is noted where the Go
code could overflow), `float64` values are modelled as `ℚ`, Go slices and
BPF hash maps as lists, and fallible operations as `Except`/`Option`.
-/

namespace Microradar

/-! ### Association-list model of BPF hash maps

The kernel LRU hash maps are modelled as association lists.  LRU eviction
is not triggered in any scenario below (capacities 1000/10000 are never
reached), so plain upsert/lookup/delete semantics suffice.
-/

/-- `bpf_map_lookup_elem`: first binding of the key, if any. -/
def lookupMap {α : Type} (m : List (Nat × α)) (k : Nat) : Option α :=
  match m.find? (fun kv => kv.1 == k) with
  | some kv => some kv.2
  | none => none

/-- `bpf_map_update_elem` with `BPF_ANY`: replace the binding if present,
otherwise append a fresh one. -/
def updateMap {α : Type} (m : List (Nat × α)) (k : Nat) (v : α) : List (Nat × α) :=
  if (m.find? (fun kv => kv.1 == k)).isSome then
    m.map (fun kv => if kv.1 == k then (k, v) else kv)
  else
    m ++ [(k, v)]

/-- `bpf_map_delete_elem`: remove every binding of the key. -/
def deleteMap {α : Type} (m : List (Nat × α)) (k : Nat) : List (Nat × α) :=
  m.filter (fun kv => kv.1 != k)

end Microradar

namespace Microradar.Probe

/-! ### Kernel probe model (`container_trace.c`)

Fixed-size C structures become Lean structures; the `char` arrays carry
their logical content (`comm` as a string, `container_id` as raw bytes).
The single lifecycle ring buffer is a list of emitted events together with
a flag telling whether `bpf_ringbuf_reserve` succeeds for the current call
(reservation can fail when the buffer is full).
-/

/-- `struct container_info` of `common.h`. -/
structure ContainerInfo where
  cgroup_id : Nat
  pid : Nat
  ppid : Nat
  container_id : List Nat
  comm : String
  start_time : Nat
  cpu_usage : Nat
  memory_usage : Nat
  status : Nat
deriving DecidableEq, Repr

/-- Payload union of `struct event_data`. -/
inductive EventPayload where
  | container (c : ContainerInfo)
  | value (v : Nat)
deriving DecidableEq, Repr

/-- `struct event_data` of `common.h`. -/
structure EventData where
  type : Nat
  timestamp : Nat
  cgroup_id : Nat
  pid : Nat
  data : EventPayload
deriving DecidableEq, Repr

/-- State touched by the lifecycle probes: the four BPF maps of
`container_trace.c` plus the reservation oracle for the ring buffer. -/
structure KState where
  container_map : List (Nat × ContainerInfo)
  pid_to_cgroup_map : List (Nat × Nat)
  events : List EventData
  stats_map : List Nat
  ringbufOk : Bool
deriving DecidableEq, Repr

def EVENT_CONTAINER_START : Nat := 1
def EVENT_CONTAINER_STOP : Nat := 2

def CONTAINER_STATUS_CREATED : Nat := 1
def CONTAINER_STATUS_RUNNING : Nat := 2
def CONTAINER_STATUS_STOPPED : Nat := 4

def STAT_CONTAINERS_CREATED : Nat := 0
def STAT_CONTAINERS_STOPPED : Nat := 1
def STAT_EVENTS_SENT : Nat := 2
def STAT_EVENTS_DROPPED : Nat := 3

/-- `is_container_process`: cgroup id is neither 0 nor 1. -/
def is_container_process (cgroup_id : Nat) : Bool :=
  cgroup_id != 0 && cgroup_id != 1

/-- `update_stats`: atomic increment of one slot of `stats_map`. -/
def update_stats (stats : List Nat) (index : Nat) : List Nat :=
  stats.set index (stats.getD index 0 + 1)

/-- `send_event`: reserve a ring-buffer slot and submit, or drop and count. -/
def send_event (s : KState) (e : EventData) : KState :=
  if s.ringbufOk then
    { s with events := s.events ++ [e],
             stats_map := update_stats s.stats_map STAT_EVENTS_SENT }
  else
    { s with stats_map := update_stats s.stats_map STAT_EVENTS_DROPPED }

/-- Little-endian bytes of the cgroup id up to the first zero byte:
model of `bpf_probe_read_kernel_str(container.container_id, 16, &cgroup_id)`,
which copies the raw bytes of the `__u64` until a NUL terminator. -/
def cgroupIdBytes (x : Nat) : List Nat :=
  ((List.range 8).map (fun i => x / 2 ^ (8 * i) % 256)).takeWhile (fun b => b ≠ 0)

/-- `trace_container_start` (`tracepoint/syscalls/sys_enter_clone`). -/
def trace_container_start (s : KState) (cgroup_id pid now : Nat)
    (comm : String) : KState :=
  if is_container_process cgroup_id then
    let s1 : KState :=
      { s with pid_to_cgroup_map := updateMap s.pid_to_cgroup_map pid cgroup_id }
    match lookupMap s1.container_map cgroup_id with
    | some _ => s1
    | none =>
      let container : ContainerInfo :=
        { cgroup_id := cgroup_id
          pid := pid
          ppid := pid
          container_id := cgroupIdBytes cgroup_id
          comm := comm
          start_time := now
          cpu_usage := 0
          memory_usage := 0
          status := CONTAINER_STATUS_CREATED }
      let s2 : KState :=
        { s1 with container_map := updateMap s1.container_map cgroup_id container }
      let ev : EventData :=
        { type := EVENT_CONTAINER_START, timestamp := now,
          cgroup_id := cgroup_id, pid := pid, data := .container container }
      let s3 := send_event s2 ev
      { s3 with stats_map := update_stats s3.stats_map STAT_CONTAINERS_CREATED }
  else s

/-- `trace_container_stop` (`tracepoint/syscalls/sys_enter_exit`). -/
def trace_container_stop (s : KState) (cgroup_id pid now : Nat) : KState :=
  if is_container_process cgroup_id then
    match lookupMap s.container_map cgroup_id with
    | none => s
    | some container =>
      if container.pid = pid then
        let stopped := { container with status := CONTAINER_STATUS_STOPPED }
        let s1 : KState :=
          { s with container_map := updateMap s.container_map cgroup_id stopped }
        let ev : EventData :=
          { type := EVENT_CONTAINER_STOP, timestamp := now,
            cgroup_id := cgroup_id, pid := pid, data := .container stopped }
        let s2 := send_event s1 ev
        let s3 : KState :=
          { s2 with stats_map := update_stats s2.stats_map STAT_CONTAINERS_STOPPED }
        { s3 with container_map := deleteMap s3.container_map cgroup_id,
                  pid_to_cgroup_map := deleteMap s3.pid_to_cgroup_map pid }
      else s
  else s

/-- `kprobe_cgroup_attach` (`kprobe/cgroup_attach_task`). -/
def kprobe_cgroup_attach (s : KState) (cgroup_id pid now : Nat) : KState :=
  if is_container_process cgroup_id then
    let s1 : KState :=
      { s with pid_to_cgroup_map := updateMap s.pid_to_cgroup_map pid cgroup_id }
    match lookupMap s1.container_map cgroup_id with
    | some container =>
      if container.status = CONTAINER_STATUS_CREATED then
        let running := { container with status := CONTAINER_STATUS_RUNNING }
        let s2 : KState :=
          { s1 with container_map := updateMap s1.container_map cgroup_id running }
        let ev : EventData :=
          { type := EVENT_CONTAINER_START, timestamp := now,
            cgroup_id := cgroup_id, pid := pid, data := .container running }
        send_event s2 ev
      else s1
    | none => s1
  else s

/-- `trace_process_exec` (`tracepoint/sched/sched_process_exec`). -/
def trace_process_exec (s : KState) (cgroup_id pid now : Nat)
    (comm : String) : KState :=
  if is_container_process cgroup_id then
    match lookupMap s.container_map cgroup_id with
    | some container =>
      let container1 := { container with comm := comm }
      let container2 :=
        if container1.status = CONTAINER_STATUS_CREATED then
          { container1 with status := CONTAINER_STATUS_RUNNING }
        else container1
      { s with container_map := updateMap s.container_map cgroup_id container2 }
    | none => s
  else s

/-- No key of the container table is the root/init cgroup. -/
def noRootKeys (s : KState) : Prop :=
  ∀ kv ∈ s.container_map, kv.1 ≠ 0 ∧ kv.1 ≠ 1

instance (s : KState) : Decidable (noRootKeys s) := by
  unfold noRootKeys
  exact List.decidableBAll _ _

end Microradar.Probe

namespace Microradar

open Probe

/-- Concrete running container record (cgroup id 5, primary pid 7),
used by closed witnesses. -/
def witnessContainer : ContainerInfo :=
  { cgroup_id := 5, pid := 7, ppid := 7, container_id := [5], comm := "app",
    start_time := 3, cpu_usage := 0, memory_usage := 0,
    status := CONTAINER_STATUS_RUNNING }

/-- Concrete kernel state with one container (cgroup id 5, primary pid 7),
used by closed witnesses. -/
def c1WitnessState : KState :=
  { container_map := [(5, witnessContainer)],
    pid_to_cgroup_map := [(7, 5)],
    events := [],
    stats_map := [0, 0, 0, 0, 0, 0, 0, 0, 0, 0],
    ringbufOk := true }

/-! ### User-space monitor (`pkg/ebpf/monitor.go`) -/

/-- `ContainerMetric` of `pkg/ebpf/monitor.go` (`time.Time` as nanoseconds). -/
structure ContainerMetric where
  id : String
  name : String
  pid : Nat
  cpuPercent : ℚ
  memoryPercent : ℚ
  memoryUsage : Nat
  networkLatency : ℚ
  tcpRetransmits : Nat
  status : String
  startTime : Nat
deriving DecidableEq, Repr

/-- `Metrics` of `pkg/ebpf/monitor.go`. -/
structure Metrics where
  containers : List ContainerMetric
  systemMemory : Nat
  ebpfMapsCount : Nat
  lastUpdate : Nat
deriving DecidableEq, Repr

/-- The mutable fields of `Monitor` touched by `Start`/`Stop`/`cleanup`:
the running flag, the attached links, the loaded collection, the metrics,
and the processor run state. -/
structure MonitorState where
  running : Bool
  startTime : Nat
  metrics : Metrics
  linksCount : Nat
  collLoaded : Bool
  processorRunning : Bool
deriving DecidableEq, Repr

/-- Environment of one `Start` call: whether `loadPrograms`,
`attachPrograms` and `processor.Start` succeed, the wall clock, and how
many links attach. -/
structure StartEnv where
  loadOk : Bool
  attachOk : Bool
  processorOk : Bool
  now : Nat
  attachedLinks : Nat
deriving DecidableEq, Repr

/-- `Monitor.cleanup`: close every link and the collection. -/
def monitorCleanup (m : MonitorState) : MonitorState :=
  { m with linksCount := 0, collLoaded := false }

/-- `Monitor.Start`: error if already running, otherwise load, attach,
start the processor (unwinding with `cleanup` on failure) and mark
running. -/
def monitorStart (env : StartEnv) (m : MonitorState) :
    Except String Unit × MonitorState :=
  if m.running then (.error "监控器已在运行", m)
  else if env.loadOk = false then (.error "加载 eBPF 程序失败", m)
  else
    let m1 := { m with collLoaded := true }
    if env.attachOk = false then
      (.error "附加 eBPF 程序失败", monitorCleanup m1)
    else
      let m2 := { m1 with linksCount := env.attachedLinks }
      if env.processorOk = false then
        (.error "启动数据处理引擎失败", monitorCleanup m2)
      else
        (.ok (), { m2 with processorRunning := true, running := true,
                           startTime := env.now })

/-- `Monitor.Stop`: success without any change when not running, otherwise
stop the processor, clean up and clear the running flag. -/
def monitorStop (m : MonitorState) : Except String Unit × MonitorState :=
  if m.running = false then (.ok (), m)
  else
    let m1 := { m with processorRunning := false }
    let m2 := monitorCleanup m1
    (.ok (), { m2 with running := false })

/-- Concrete running monitor state for closed witnesses. -/
def runningMonitor : MonitorState :=
  { running := true, startTime := 17,
    metrics := { containers := [], systemMemory := 0, ebpfMapsCount := 9,
                 lastUpdate := 17 },
    linksCount := 6, collLoaded := true, processorRunning := true }

/-- Concrete stopped monitor state for closed witnesses. -/
def stoppedMonitor : MonitorState :=
  { running := false, startTime := 0,
    metrics := { containers := [], systemMemory := 0, ebpfMapsCount := 0,
                 lastUpdate := 0 },
    linksCount := 0, collLoaded := false, processorRunning := false }

end Microradar

namespace Microradar.Agg

/-! ### Aggregator sample handlers (`pkg/ebpf/processor.go`)

`AggregatedContainerMetrics` and the `CPUSampleHandler` /
`MemorySampleHandler` event handlers.  `float64` samples are `ℚ`;
`uint64` sums wrap modulo `2 ^ 64` as in Go.  In the source the sample
values are the hard-coded placeholders `50.0` and `512 MiB`.
-/

/-- `AggregatedContainerMetrics` of `pkg/ebpf/processor.go`. -/
structure AggContainer where
  cgroupID : Nat
  containerID : String
  name : String
  pid : Nat
  cpuSamples : List ℚ
  cpuAvg : ℚ
  cpuMax : ℚ
  cpuMin : ℚ
  memorySamples : List Nat
  memoryAvg : Nat
  memoryMax : Nat
  memoryMin : Nat
  status : String
  startTime : Nat
  lastUpdate : Nat
deriving DecidableEq, Repr

/-- `CPUSampleHandler.calculateCPUStats`. -/
def calculateCPUStats (c : AggContainer) : AggContainer :=
  if c.cpuSamples.length = 0 then c
  else
    let first := c.cpuSamples.headD 0
    let sum := c.cpuSamples.foldl (fun a b => a + b) 0
    let mn := c.cpuSamples.foldl (fun a b => if b < a then b else a) first
    let mx := c.cpuSamples.foldl (fun a b => if a < b then b else a) first
    { c with cpuAvg := sum / (c.cpuSamples.length : ℚ), cpuMin := mn,
             cpuMax := mx }

/-- `MemorySampleHandler.calculateMemoryStats` (`uint64` addition wraps). -/
def calculateMemoryStats (c : AggContainer) : AggContainer :=
  if c.memorySamples.length = 0 then c
  else
    let first := c.memorySamples.headD 0
    let sum := c.memorySamples.foldl (fun a b => (a + b) % 2 ^ 64) 0
    let mn := c.memorySamples.foldl (fun a b => if b < a then b else a) first
    let mx := c.memorySamples.foldl (fun a b => if a < b then b else a) first
    { c with memoryAvg := sum / c.memorySamples.length, memoryMin := mn,
             memoryMax := mx }

/-- `CPUSampleHandler.HandleEvent` acting on the
`aggregator.containerMetrics` table; an unknown cgroup id is an error and
leaves the table unchanged.  The appended sample is the source's mock
value `50.0`. -/
def cpuSampleHandleEvent (A : List (Nat × AggContainer)) (cg now : Nat) :
    List (Nat × AggContainer) :=
  match lookupMap A cg with
  | none => A
  | some c =>
    let cpuUsage : ℚ := 50
    let samples := c.cpuSamples ++ [cpuUsage]
    let samples2 := if samples.length > 100 then samples.drop 1 else samples
    let c1 := calculateCPUStats { c with cpuSamples := samples2 }
    updateMap A cg { c1 with lastUpdate := now }

/-- `MemorySampleHandler.HandleEvent`; the appended sample is the source's
mock value `512 * 1024 * 1024`. -/
def memorySampleHandleEvent (A : List (Nat × AggContainer)) (cg now : Nat) :
    List (Nat × AggContainer) :=
  match lookupMap A cg with
  | none => A
  | some c =>
    let memoryUsage : Nat := 512 * 1024 * 1024
    let samples := c.memorySamples ++ [memoryUsage]
    let samples2 := if samples.length > 100 then samples.drop 1 else samples
    let c1 := calculateMemoryStats { c with memorySamples := samples2 }
    updateMap A cg { c1 with lastUpdate := now }

/-- One CPU-sample or memory-sample event dispatched to its handler. -/
inductive SampleEvent where
  | cpu (cg now : Nat)
  | mem (cg now : Nat)
deriving DecidableEq, Repr

/-- Dispatch one event (tags 4 and 5 of the event-handler table). -/
def applySample (A : List (Nat × AggContainer)) (e : SampleEvent) :
    List (Nat × AggContainer) :=
  match e with
  | .cpu cg now => cpuSampleHandleEvent A cg now
  | .mem cg now => memorySampleHandleEvent A cg now

/-- Every record keeps at most 100 CPU samples and 100 memory samples. -/
def samplesBounded (A : List (Nat × AggContainer)) : Prop :=
  ∀ kv ∈ A, kv.2.cpuSamples.length ≤ 100 ∧ kv.2.memorySamples.length ≤ 100

instance (A : List (Nat × AggContainer)) : Decidable (samplesBounded A) := by
  unfold samplesBounded
  exact List.decidableBAll _ _

/-- Concrete aggregated record for the closed witness. -/
def aggWitnessRecord : AggContainer :=
  { cgroupID := 5, containerID := "abc", name := "app", pid := 7,
    cpuSamples := [10], cpuAvg := 10, cpuMax := 10, cpuMin := 10,
    memorySamples := [64], memoryAvg := 64, memoryMax := 64, memoryMin := 64,
    status := "running", startTime := 3, lastUpdate := 3 }

/-- Aggregated record whose sample rings are already full (100 entries). -/
def agg100Record : AggContainer :=
  { aggWitnessRecord with cpuSamples := List.replicate 100 10,
                          memorySamples := List.replicate 100 64 }

/-- One-entry aggregation table holding the full record at cgroup id 5. -/
def aggWitnessTable : List (Nat × AggContainer) := [(5, agg100Record)]

end Microradar.Agg

namespace Microradar.Net

/-! ### Network metric aggregation (`Monitor.calculateNetworkMetrics`)

`float64` arithmetic is modelled over `ℚ`; `uint64`/`uint32` counter
additions wrap as in Go.
-/

/-- `FlowKey` of `pkg/ebpf/monitor.go` (the 3 padding bytes dropped). -/
structure FlowKey where
  src_ip : Nat
  dst_ip : Nat
  src_port : Nat
  dst_port : Nat
  protocol : Nat
  cgroup_id : Nat
deriving DecidableEq, Repr

/-- `FlowStats` of `pkg/ebpf/monitor.go`. -/
structure FlowStats where
  packets : Nat
  bytes : Nat
  latency_sum : Nat
  latency_count : Nat
  last_seen : Nat
  tcp_retransmits : Nat
  flags : Nat
deriving DecidableEq, Repr

/-- `NetworkMetrics` of `pkg/ebpf/monitor.go`. -/
structure NetworkMetrics where
  avgLatency : ℚ
  tcpRetransmits : Nat
  totalPackets : Nat
  totalBytes : Nat
deriving DecidableEq, Repr

/-- Loop body of `Monitor.calculateNetworkMetrics` for one flow-table
entry: fold counters for matching cgroup ids and, when latency samples
exist, average the per-flow latency pairwise into the running value. -/
def calcNetworkStep (cgroupID : Nat) (metrics : NetworkMetrics)
    (kv : FlowKey × FlowStats) : NetworkMetrics :=
  if kv.1.cgroup_id = cgroupID then
    let m1 := { metrics with
      totalPackets := (metrics.totalPackets + kv.2.packets) % 2 ^ 64,
      totalBytes := (metrics.totalBytes + kv.2.bytes) % 2 ^ 64,
      tcpRetransmits := (metrics.tcpRetransmits + kv.2.tcp_retransmits) % 2 ^ 32 }
    if kv.2.latency_count > 0 then
      let latencyMs : ℚ :=
        (kv.2.latency_sum : ℚ) / (kv.2.latency_count : ℚ) / 1000000
      if m1.avgLatency = 0 then { m1 with avgLatency := latencyMs }
      else { m1 with avgLatency := (m1.avgLatency + latencyMs) / 2 }
    else m1
  else metrics

/-- `Monitor.calculateNetworkMetrics`: iterate the flow-stats table. -/
def calculateNetworkMetrics (cgroupID : Nat)
    (flows : List (FlowKey × FlowStats)) : NetworkMetrics :=
  flows.foldl (calcNetworkStep cgroupID)
    { avgLatency := 0, tcpRetransmits := 0, totalPackets := 0, totalBytes := 0 }

/-- Modelled from the spec's words (for comparison with the code): the
arithmetic mean over the matching flows with `latency_count > 0` of
`latency_sum / latency_count / 1_000_000` milliseconds. -/
def specMeanLatencyMs (cgroupID : Nat)
    (flows : List (FlowKey × FlowStats)) : ℚ :=
  let ls := (flows.filter (fun kv =>
      kv.1.cgroup_id == cgroupID && decide (kv.2.latency_count > 0))).map
    (fun kv => (kv.2.latency_sum : ℚ) / (kv.2.latency_count : ℚ) / 1000000)
  if ls.length = 0 then 0 else ls.foldl (fun a b => a + b) 0 / (ls.length : ℚ)

/-- A flow on cgroup id 5 with one latency sample of `sum` nanoseconds. -/
def c5Flow (sum : Nat) : FlowKey × FlowStats :=
  ({ src_ip := 167772161, dst_ip := 167772162, src_port := 5000,
     dst_port := 80, protocol := 6, cgroup_id := 5 },
   { packets := 1, bytes := 100, latency_sum := sum, latency_count := 1,
     last_seen := 0, tcp_retransmits := 0, flags := 2 })

/-- Three flows of cgroup 5 with mean latencies 1 ms, 2 ms and 3 ms. -/
def c5Flows : List (FlowKey × FlowStats) :=
  [c5Flow 1000000, c5Flow 2000000, c5Flow 3000000]

end Microradar.Net

namespace Microradar.Config

/-! ### Configuration loading (`pkg/config/config.go`)

`Load` reads a file and YAML-decodes it (I/O, not modelled); the model
starts from the decoded `Config` value, in which every field omitted from
the YAML document carries its Go zero value.  `Load` then runs `Validate`
followed by `SetDefaults` — in that order — which is what the claims are
about.  `time.Duration` values are nanoseconds as `Nat`; `float64`
thresholds are `ℚ`.
-/

/-- `TargetConfig`. -/
structure TargetConfig where
  name : String
  runtime : String
  metricNames : List String
  samplingRate : Nat
deriving DecidableEq, Repr

/-- `AlertThresholds`. -/
structure AlertThresholds where
  cpu : ℚ
  memory : ℚ
  networkLatency : ℚ
deriving DecidableEq, Repr

/-- `MonitoringConfig`. -/
structure MonitoringConfig where
  targets : List TargetConfig
  alertThresholds : AlertThresholds
deriving DecidableEq, Repr

/-- `DisplayConfig`. -/
structure DisplayConfig where
  refreshRate : Nat
  theme : String
deriving DecidableEq, Repr

/-- `SystemConfig`. -/
structure SystemConfig where
  maxContainers : Nat
  memoryLimit : String
  logLevel : String
deriving DecidableEq, Repr

/-- `Config`. -/
structure Config where
  monitoring : MonitoringConfig
  display : DisplayConfig
  system : SystemConfig
deriving DecidableEq, Repr

/-- `time.Second` in nanoseconds. -/
def timeSecond : Nat := 1000000000

/-- `time.Millisecond` in nanoseconds. -/
def timeMillisecond : Nat := 1000000

/-- Per-target checks of `Config.Validate`, returning the first error. -/
def validateTargets : Nat → List TargetConfig → Option String
  | _, [] => none
  | i, t :: rest =>
    if t.name = "" then
      some ("监控目标[" ++ toString i ++ "]名称不能为空")
    else if t.runtime = "" then
      some ("监控目标[" ++ toString i ++ "]运行时不能为空")
    else if (["docker", "containerd", "cri-o"].contains t.runtime) = false then
      some ("监控目标[" ++ toString i ++ "]运行时不支持")
    else if t.samplingRate < timeSecond then
      some ("监控目标[" ++ toString i ++ "]采样间隔不能小于1秒")
    else validateTargets (i + 1) rest

/-- `Config.Validate`: first failing check, if any. -/
def validate (c : Config) : Option String :=
  if c.monitoring.targets.length = 0 then some "至少需要配置一个监控目标"
  else
    match validateTargets 0 c.monitoring.targets with
    | some e => some e
    | none =>
      if c.monitoring.alertThresholds.cpu ≤ 0 ∨
          100 < c.monitoring.alertThresholds.cpu then
        some "CPU告警阈值必须在0-100之间"
      else if c.monitoring.alertThresholds.memory ≤ 0 ∨
          100 < c.monitoring.alertThresholds.memory then
        some "内存告警阈值必须在0-100之间"
      else if c.monitoring.alertThresholds.networkLatency ≤ 0 then
        some "网络延迟告警阈值必须大于0"
      else none

/-- `Config.SetDefaults`: replace each zero value with its default. -/
def setDefaults (c : Config) : Config :=
  { monitoring :=
      { targets := c.monitoring.targets.map (fun t =>
          { t with
            samplingRate :=
              if t.samplingRate = 0 then 2 * timeSecond else t.samplingRate,
            metricNames :=
              if t.metricNames.length = 0 then
                ["cpu", "memory", "network_latency", "tcp_retransmits"]
              else t.metricNames }),
        alertThresholds :=
          { cpu := if c.monitoring.alertThresholds.cpu = 0 then 70
                   else c.monitoring.alertThresholds.cpu,
            memory := if c.monitoring.alertThresholds.memory = 0 then 80
                      else c.monitoring.alertThresholds.memory,
            networkLatency :=
              if c.monitoring.alertThresholds.networkLatency = 0 then 10
              else c.monitoring.alertThresholds.networkLatency } },
    display :=
      { refreshRate := if c.display.refreshRate = 0 then 100 * timeMillisecond
                       else c.display.refreshRate,
        theme := if c.display.theme = "" then "default" else c.display.theme },
    system :=
      { maxContainers := if c.system.maxContainers = 0 then 1000
                         else c.system.maxContainers,
        memoryLimit := if c.system.memoryLimit = "" then "48MB"
                       else c.system.memoryLimit,
        logLevel := if c.system.logLevel = "" then "info"
                    else c.system.logLevel } }

/-- `Load` after YAML decoding: `Validate` first, `SetDefaults` second. -/
def load (c : Config) : Except String Config :=
  match validate c with
  | some e => Except.error ("配置验证失败: " ++ e)
  | none => Except.ok (setDefaults c)

/-- A YAML document with one named docker target that omits
`sampling_rate` and `alert_thresholds` decodes to this value (omitted
fields are Go zero values). -/
def c6Config : Config :=
  { monitoring :=
      { targets := [{ name := "web-containers", runtime := "docker",
                      metricNames := [], samplingRate := 0 }],
        alertThresholds := { cpu := 0, memory := 0, networkLatency := 0 } },
    display := { refreshRate := 0, theme := "" },
    system := { maxContainers := 0, memoryLimit := "", logLevel := "" } }

end Microradar.Config

namespace Microradar.Resolver

/-! ### Runtime resolver (`RuntimeDetector`)

`isContainerCgroup`, `extractContainerID` and the per-line body of
`parseCgroupFile`.  Go's `strings.Contains`, `strings.Split` (non-empty
separator) and `strings.TrimSpace` are modelled on character lists with a
fuel argument so every function reduces inside the kernel.
-/

/-- Character-list prefix test. -/
def leadsWith : List Char → List Char → Bool
  | [], _ => true
  | _ :: _, [] => false
  | a :: as, b :: bs => a == b && leadsWith as bs

/-- Fuel-indexed scanner for Go `strings.Contains`: does `sep` occur in
`l`?  Called with `fuel = l.length`, so fuel never runs out early. -/
def containsAux (sep : List Char) : Nat → List Char → Bool
  | 0, l => leadsWith sep l
  | fuel + 1, l =>
    if leadsWith sep l then true
    else
      match l with
      | [] => false
      | _ :: rest => containsAux sep fuel rest

/-- Go `strings.Contains`. -/
def strContains (s sub : String) : Bool :=
  containsAux sub.toList s.toList.length s.toList

/-- Fuel-indexed splitter for Go `strings.Split` with a non-empty
separator: split around each leftmost non-overlapping occurrence.  `acc`
holds the current field reversed. -/
def splitOnAux (sep : List Char) : Nat → List Char → List Char → List (List Char)
  | 0, l, acc => [acc.reverse ++ l]
  | _ + 1, [], acc => [acc.reverse]
  | fuel + 1, c :: rest, acc =>
    if leadsWith sep (c :: rest) then
      acc.reverse :: splitOnAux sep fuel ((c :: rest).drop sep.length) []
    else
      splitOnAux sep fuel rest (c :: acc)

/-- Go `strings.Split` for a non-empty separator. -/
def goSplit (s sep : String) : List String :=
  (splitOnAux sep.toList s.toList.length s.toList []).map String.mk

/-- Go `strings.TrimSpace`. -/
def goTrim (s : String) : String :=
  String.mk
    (((s.toList.dropWhile Char.isWhitespace).reverse.dropWhile
        Char.isWhitespace).reverse)

/-- `RuntimeDetector.isContainerCgroup`. -/
def isContainerCgroup (line runtime : String) : Bool :=
  if runtime = "docker" then
    strContains line "/docker/" || strContains line "/docker-"
  else if runtime = "containerd" then
    strContains line "/containerd/" || strContains line "/k8s.io/"
  else if runtime = "cri-o" then
    strContains line "/crio-" || strContains line "/crio/"
  else false

/-- `RuntimeDetector.extractContainerID`. -/
def extractContainerID (line runtime : String) : String :=
  if runtime = "docker" then
    let parts := goSplit line "/docker/"
    if parts.length > 1 then goTrim (parts.getD 1 "") else ""
  else if runtime = "containerd" then
    let parts := goSplit line "/containerd/"
    if parts.length > 1 then goTrim (parts.getD 1 "") else ""
  else if runtime = "cri-o" then
    let parts := goSplit line "/crio-"
    if parts.length > 1 then goTrim (parts.getD 1 "") else ""
  else ""

/-- `ContainerRuntimeInfo` (the fields `parseCgroupFile` fills). -/
structure ContainerRuntimeInfo where
  id : String
  runtime : String
  pid : Nat
  cgroupPath : String
  status : String
deriving DecidableEq, Repr

/-- Per-line body of `RuntimeDetector.parseCgroupFile`: a record is
returned only when the line is classified for the runtime and the
extracted id is non-empty; otherwise the line is skipped. -/
def classifyLine (line runtime : String) (pid : Nat) :
    Option ContainerRuntimeInfo :=
  if isContainerCgroup line runtime then
    let containerID := extractContainerID line runtime
    if containerID ≠ "" then
      some { id := containerID, runtime := runtime, pid := pid,
             cgroupPath := line, status := "running" }
    else none
  else none

end Microradar.Resolver

namespace Microradar.Daemon

/-! ### Daemon HTTP metrics handler (`DaemonServer.metricsHandler`)

The handler writes a sequence of text lines from the result of
`GetMetrics` (which always returns a non-nil `Metrics`).  The model
returns the list of lines.  `%.2f` numeric rendering is abstracted by
`fmtF2` (its exact decimal text never matters below: the claims only
inspect which metric lines exist). -/

/-- Abstraction of `fmt` `%.2f` rendering of a `float64`. -/
def fmtF2 (q : ℚ) : String := toString q

/-- Lines written by `DaemonServer.metricsHandler` for a metrics value. -/
def metricsHandler (m : Metrics) : List String :=
  [ "# HELP microradar_containers_total 监控的容器总数",
    "# TYPE microradar_containers_total gauge",
    "microradar_containers_total " ++ toString m.containers.length,
    "# HELP microradar_memory_usage_bytes 内存使用量",
    "# TYPE microradar_memory_usage_bytes gauge",
    "microradar_memory_usage_bytes " ++ toString m.systemMemory ]
  ++ (m.containers.map (fun c =>
      let labels := "\x7bcontainer_id=\"" ++ c.id ++ "\",container_name=\""
        ++ c.name ++ "\"\x7d"
      [ "microradar_container_cpu_percent" ++ labels ++ " "
          ++ fmtF2 c.cpuPercent,
        "microradar_container_memory_percent" ++ labels ++ " "
          ++ fmtF2 c.memoryPercent,
        "microradar_container_network_latency_ms" ++ labels ++ " "
          ++ fmtF2 c.networkLatency ])).join

/-- A line is a comment when it starts with the `#` character. -/
def isCommentLine (l : String) : Bool :=
  Resolver.leadsWith ['#'] l.toList

/-- The metric (non-comment) lines of an exposition document. -/
def metricLines (out : List String) : List String :=
  out.filter (fun l => !(isCommentLine l))

/-- `GetMetrics` result when no containers have been observed. -/
def daemonEmptyMetrics : Metrics :=
  { containers := [], systemMemory := 0, ebpfMapsCount := 0, lastUpdate := 0 }

end Microradar.Daemon

namespace Microradar.Heap

/-! ### `Monitor.GetMetrics` under an explicit slice store

`GetMetrics` returns a copy of the monitor's metrics: the scalar fields
are copied by value and the `Containers` slice is duplicated with
`make` + `copy` into a fresh backing array.  To state the aliasing claim,
slice backing arrays live in an explicit store addressed by index; `make`
allocates a fresh address. -/

/-- The store of slice backing arrays. -/
structure Store where
  slabs : List (List ContainerMetric)
deriving DecidableEq, Repr

/-- Dereference a slice. -/
def readSlab (st : Store) (r : Nat) : List ContainerMetric :=
  st.slabs.getD r []

/-- `make` + `copy`: allocate a fresh backing array holding `xs`. -/
def alloc (st : Store) (xs : List ContainerMetric) : Nat × Store :=
  (st.slabs.length, { slabs := st.slabs ++ [xs] })

/-- Mutate element `i` of the slice at `r` (out-of-range writes are
no-ops, as the claims never exercise them). -/
def writeElem (st : Store) (r i : Nat) (v : ContainerMetric) : Store :=
  { slabs := st.slabs.set r ((st.slabs.getD r []).set i v) }

/-- A `Metrics` value whose `Containers` slice is a store reference. -/
structure MetricsRef where
  containersRef : Nat
  systemMemory : Nat
  ebpfMapsCount : Nat
  lastUpdate : Nat
deriving DecidableEq, Repr

/-- The monitor's heap: the slice store and its current metrics. -/
structure MonitorHeap where
  store : Store
  metricsRef : MetricsRef
deriving DecidableEq, Repr

/-- `Monitor.GetMetrics`: copy the scalar fields and duplicate the
containers slice into a freshly allocated backing array. -/
def getMetrics (mh : MonitorHeap) : MetricsRef × MonitorHeap :=
  let src := readSlab mh.store mh.metricsRef.containersRef
  let addr := (alloc mh.store src).1
  let store2 := (alloc mh.store src).2
  ({ containersRef := addr,
     systemMemory := mh.metricsRef.systemMemory,
     ebpfMapsCount := mh.metricsRef.ebpfMapsCount,
     lastUpdate := mh.metricsRef.lastUpdate },
   { mh with store := store2 })

/-- The monitor's metrics dereferenced to a plain value. -/
def viewMetrics (mh : MonitorHeap) : Metrics :=
  { containers := readSlab mh.store mh.metricsRef.containersRef,
    systemMemory := mh.metricsRef.systemMemory,
    ebpfMapsCount := mh.metricsRef.ebpfMapsCount,
    lastUpdate := mh.metricsRef.lastUpdate }

/-- Mutate element `i` of the slice returned by `GetMetrics` (the caller
writing through the returned value). -/
def mutateReturned (mh : MonitorHeap) (i : Nat) (v : ContainerMetric) :
    MonitorHeap :=
  { (getMetrics mh).2 with
    store := writeElem (getMetrics mh).2.store
      (getMetrics mh).1.containersRef i v }

/-- Concrete container element stored in the witness heap. -/
def heapWitnessElem : ContainerMetric :=
  { id := "abc", name := "app", pid := 7, cpuPercent := 1,
    memoryPercent := 2, memoryUsage := 3, networkLatency := 4,
    tcpRetransmits := 0, status := "running", startTime := 9 }

/-- Concrete one-container heap for the closed witness. -/
def heapWitness : MonitorHeap :=
  { store := { slabs := [[heapWitnessElem]] },
    metricsRef := { containersRef := 0, systemMemory := 11,
                    ebpfMapsCount := 9, lastUpdate := 13 } }

/-- Concrete replacement element for the closed witness mutation. -/
def heapWitnessMutation : ContainerMetric :=
  { id := "zzz", name := "mut", pid := 1, cpuPercent := 0,
    memoryPercent := 0, memoryUsage := 0, networkLatency := 0,
    tcpRetransmits := 0, status := "stopped", startTime := 0 }

end Microradar.Heap

namespace Microradar.Pool

/-! ### Bounded object pool (`pkg/ebpf/memory.go`)

`ObjectPool` stores objects in a buffered channel of capacity `maxSize`;
`Get` takes from the front or calls the factory, `Put` resets the object
and appends when the buffer has room, silently discarding otherwise.  The
channel contents are a FIFO list; the factory and reset closures are
parameters of the operations.  `Put` rejects nil up front, so the list
never holds a nil object. -/

/-- `ObjectPool` (the channel contents plus its counters). -/
structure ObjectPool (α : Type) where
  objects : List α
  maxSize : Nat
  created : Nat
  hits : Nat
  misses : Nat
deriving DecidableEq, Repr

/-- `CreatePool`: fresh pool with an empty buffered channel. -/
def createPool (α : Type) (maxSize : Nat) : ObjectPool α :=
  { objects := [], maxSize := maxSize, created := 0, hits := 0, misses := 0 }

/-- `ObjectPool.Get`: take the oldest pooled object, or construct one. -/
def poolGet {α : Type} (factory : Unit → α) (p : ObjectPool α) :
    α × ObjectPool α :=
  match p.objects with
  | obj :: rest => (obj, { p with objects := rest, hits := p.hits + 1 })
  | [] =>
    (factory (), { p with misses := p.misses + 1, created := p.created + 1 })

/-- `ObjectPool.Put`: nil is ignored; otherwise reset the object and
append it when the channel has room, else discard it. -/
def poolPut {α : Type} (reset : α → α) (p : ObjectPool α) (obj : Option α) :
    ObjectPool α :=
  match obj with
  | none => p
  | some o =>
    let o2 := reset o
    if p.objects.length < p.maxSize then { p with objects := p.objects ++ [o2] }
    else p

/-- One pool operation. -/
inductive PoolOp (α : Type) where
  | get
  | put (obj : Option α)
deriving DecidableEq, Repr

/-- Run one operation, discarding `Get` results. -/
def applyPoolOp {α : Type} (factory : Unit → α) (reset : α → α)
    (p : ObjectPool α) (op : PoolOp α) : ObjectPool α :=
  match op with
  | .get => (poolGet factory p).2
  | .put obj => poolPut reset p obj

/-- The pool never stores more than its capacity. -/
def poolBounded {α : Type} (p : ObjectPool α) : Prop :=
  p.objects.length ≤ p.maxSize

/-- Concrete full pool of capacity 2 for the closed witness. -/
def fullNatPool : ObjectPool Nat :=
  { objects := [1, 2], maxSize := 2, created := 0, hits := 0, misses := 0 }

end Microradar.Pool

/-! ## DEFINITIONS END, THEOREMS BEGIN -/

namespace Microradar

theorem mem_updateMap {α : Type} (m : List (Nat × α)) (k : Nat) (v : α) :
    ∀ kv ∈ updateMap m k v, kv ∈ m ∨ kv = (k, v) := by
  intro kv hkv
  unfold updateMap at hkv
  by_cases h : (m.find? (fun kv => kv.1 == k)).isSome
  · simp only [h, if_true] at hkv
    rcases List.mem_map.mp hkv with ⟨kv0, hkv0, heq⟩
    by_cases hk : kv0.1 == k
    · simp only [hk, if_true] at heq
      right; rw [← heq]
    · simp only [hk, if_false] at heq
      left; rw [← heq]; exact hkv0
  · simp only [h, if_false] at hkv
    rcases List.mem_append.mp hkv with h1 | h1
    · left; exact h1
    · right
      simpa using h1

theorem mem_deleteMap {α : Type} (m : List (Nat × α)) (k : Nat) :
    ∀ kv ∈ deleteMap m k, kv ∈ m := by
  intro kv hkv
  exact (List.mem_filter.mp hkv).1

theorem lookup_some_mem {α : Type} (m : List (Nat × α)) (k : Nat) (v : α)
    (h : lookupMap m k = some v) : (k, v) ∈ m := by
  unfold lookupMap at h
  cases hf : m.find? (fun kv => kv.1 == k) with
  | none => rw [hf] at h; exact absurd h (by simp)
  | some kv =>
    rw [hf] at h
    have hmem := List.mem_of_find?_eq_some hf
    have hkey : (kv.1 == k) = true := by simpa using List.find?_some hf
    have hv : kv.2 = v := by simpa using h
    have : kv = (k, v) := by
      cases kv with
      | mk a b =>
        simp only at hkey hv
        rw [eq_of_beq hkey, hv]
    rw [← this]
    exact hmem

theorem lookup_updateMap_self {α : Type} (m : List (Nat × α)) (k : Nat) (v : α) :
    lookupMap (updateMap m k v) k = some v := by
  unfold updateMap
  by_cases hf : (m.find? (fun kv => kv.1 == k)).isSome
  · rw [if_pos hf]
    unfold lookupMap
    induction m with
    | nil => simp at hf
    | cons kv rest ih =>
      simp only [List.map, List.find?]
      by_cases hk : kv.1 == k
      · simp [hk]
      · simp only [Bool.not_eq_true] at hk
        rw [if_neg (by simp [hk]), hk]
        simp only [List.find?, Option.isSome] at hf
        rw [hk] at hf
        exact ih hf
  · rw [if_neg hf]
    unfold lookupMap
    induction m with
    | nil => simp [List.find?]
    | cons kv rest ih =>
      simp only [List.find?, Option.isSome] at hf
      have hk : (kv.1 == k) = false := by
        cases hkk : kv.1 == k with
        | true => rw [hkk] at hf; simp at hf
        | false => rfl
      rw [hk] at hf
      simp only [List.cons_append, List.find?, hk]
      exact ih hf

theorem lookup_deleteMap_self {α : Type} (m : List (Nat × α)) (k : Nat) :
    lookupMap (deleteMap m k) k = none := by
  unfold lookupMap deleteMap
  induction m with
  | nil => rfl
  | cons kv rest ih =>
    by_cases h : kv.1 = k
    · simpa [List.filter, h] using ih
    · simp only [List.filter]
      have hne : (kv.1 != k) = true := by simp [h]
      rw [hne]
      simp only [List.find?]
      have : (kv.1 == k) = false := by simp [h]
      rw [this]
      exact ih

theorem lookup_deleteMap_ne {α : Type} (m : List (Nat × α)) (k k2 : Nat)
    (h : k2 ≠ k) : lookupMap (deleteMap m k) k2 = lookupMap m k2 := by
  unfold lookupMap deleteMap
  induction m with
  | nil => rfl
  | cons kv rest ih =>
    by_cases hk : kv.1 = k
    · have hne : (kv.1 != k) = false := by simp [hk]
      have hk2 : (kv.1 == k2) = false := by
        simp only [beq_eq_false_iff_ne, ne_eq]
        rw [hk]; exact fun hc => h hc.symm
      simp only [List.filter, hne, List.find?, hk2]
      exact ih
    · have hne : (kv.1 != k) = true := by simp [hk]
      simp only [List.filter, hne, List.find?]
      by_cases hk2 : kv.1 == k2
      · rw [hk2]
      · simp only [Bool.not_eq_true] at hk2
        rw [hk2]
        exact ih

theorem lookupMap_replace_ne {α : Type} (m : List (Nat × α)) (k k2 : Nat) (v : α)
    (h : k2 ≠ k) :
    lookupMap (m.map (fun kv => if kv.1 == k then (k, v) else kv)) k2 =
      lookupMap m k2 := by
  unfold lookupMap
  induction m with
  | nil => rfl
  | cons kv rest ih =>
    simp only [List.map, List.find?]
    by_cases hk : kv.1 == k
    · have hk2 : (k == k2) = false := by
        simp only [beq_eq_false_iff_ne, ne_eq]
        exact fun hc => h hc.symm
      have hkk2 : (kv.1 == k2) = false := by
        simp only [beq_eq_false_iff_ne, ne_eq]
        rw [eq_of_beq hk]
        exact fun hc => h hc.symm
      simp only [hk, if_true, List.find?, hk2, hkk2]
      exact ih
    · simp only [Bool.not_eq_true] at hk
      rw [if_neg (by simp [hk])]
      by_cases hk2 : kv.1 == k2
      · rw [hk2]
      · simp only [Bool.not_eq_true] at hk2
        rw [hk2]
        exact ih

theorem lookupMap_append_single_ne {α : Type} (m : List (Nat × α)) (k k2 : Nat)
    (v : α) (h : k2 ≠ k) :
    lookupMap (m ++ [(k, v)]) k2 = lookupMap m k2 := by
  unfold lookupMap
  induction m with
  | nil =>
    simp only [List.nil_append, List.find?]
    have : (k == k2) = false := by
      simp only [beq_eq_false_iff_ne, ne_eq]
      exact fun hc => h hc.symm
    rw [this]
  | cons kv rest ih =>
    simp only [List.cons_append, List.find?]
    by_cases hk2 : kv.1 == k2
    · rw [hk2]
    · simp only [Bool.not_eq_true] at hk2
      rw [hk2]
      exact ih

theorem lookup_updateMap_ne {α : Type} (m : List (Nat × α)) (k k2 : Nat) (v : α)
    (h : k2 ≠ k) : lookupMap (updateMap m k v) k2 = lookupMap m k2 := by
  unfold updateMap
  by_cases hf : (m.find? (fun kv => kv.1 == k)).isSome
  · simp only [hf, if_true]
    exact lookupMap_replace_ne m k k2 v h
  · simp only [hf, if_false]
    exact lookupMap_append_single_ne m k k2 v h

end Microradar

namespace Microradar.Probe

theorem noRootList_update (m : List (Nat × ContainerInfo)) (cg : Nat)
    (v : ContainerInfo) (hm : ∀ kv ∈ m, kv.1 ≠ 0 ∧ kv.1 ≠ 1)
    (h0 : cg ≠ 0) (h1 : cg ≠ 1) :
    ∀ kv ∈ updateMap m cg v, kv.1 ≠ 0 ∧ kv.1 ≠ 1 := by
  intro kv hkv
  rcases mem_updateMap m cg v kv hkv with h | h
  · exact hm kv h
  · rw [h]; exact ⟨h0, h1⟩

theorem noRootList_delete (m : List (Nat × ContainerInfo)) (k : Nat)
    (hm : ∀ kv ∈ m, kv.1 ≠ 0 ∧ kv.1 ≠ 1) :
    ∀ kv ∈ deleteMap m k, kv.1 ≠ 0 ∧ kv.1 ≠ 1 := by
  intro kv hkv
  exact hm kv (mem_deleteMap m k kv hkv)

theorem is_container_process_ne (cg : Nat) (hc : is_container_process cg = true) :
    cg ≠ 0 ∧ cg ≠ 1 := by
  unfold is_container_process at hc
  rcases Bool.and_eq_true_iff.mp hc with ⟨h0, h1⟩
  exact ⟨bne_iff_ne.mp h0, bne_iff_ne.mp h1⟩

theorem send_event_container_map (s : KState) (e : EventData) :
    (send_event s e).container_map = s.container_map := by
  unfold send_event; split <;> rfl

theorem send_event_pid_map (s : KState) (e : EventData) :
    (send_event s e).pid_to_cgroup_map = s.pid_to_cgroup_map := by
  unfold send_event; split <;> rfl

theorem send_event_events_ok (s : KState) (e : EventData)
    (hr : s.ringbufOk = true) :
    (send_event s e).events = s.events ++ [e] := by
  unfold send_event; rw [if_pos hr]

end Microradar.Probe

namespace Microradar

open Probe

theorem c1_root_cgroup_ignored (s : KState) (cg pid now : Nat) (comm : String) :
    ((cg = 0 ∨ cg = 1) →
      trace_container_start s cg pid now comm = s ∧
      trace_container_stop s cg pid now = s ∧
      kprobe_cgroup_attach s cg pid now = s ∧
      trace_process_exec s cg pid now comm = s) ∧
    (noRootKeys s →
      noRootKeys (trace_container_start s cg pid now comm) ∧
      noRootKeys (trace_container_stop s cg pid now) ∧
      noRootKeys (kprobe_cgroup_attach s cg pid now) ∧
      noRootKeys (trace_process_exec s cg pid now comm)) := by
  constructor
  · intro h
    have hc : is_container_process cg = false := by
      rcases h with h | h <;> rw [h] <;> rfl
    refine ⟨?_, ?_, ?_, ?_⟩ <;>
      simp [trace_container_start, trace_container_stop, kprobe_cgroup_attach,
        trace_process_exec, hc]
  · intro hs
    by_cases hc : is_container_process cg = true
    · rcases is_container_process_ne cg hc with ⟨h0, h1⟩
      refine ⟨?_, ?_, ?_, ?_⟩
      · unfold noRootKeys trace_container_start
        rw [if_pos hc]
        dsimp only
        split
        · intro kv hkv
          exact hs kv (by simpa using hkv)
        · intro kv hkv
          rw [send_event_container_map] at hkv
          exact noRootList_update _ cg _ hs h0 h1 kv (by simpa using hkv)
      · unfold noRootKeys trace_container_stop
        rw [if_pos hc]
        dsimp only
        split
        · exact hs
        · split
          · intro kv hkv
            rw [send_event_container_map] at hkv
            refine noRootList_delete _ cg ?_ kv (by simpa using hkv)
            exact noRootList_update _ cg _ hs h0 h1
          · exact hs
      · unfold noRootKeys kprobe_cgroup_attach
        rw [if_pos hc]
        dsimp only
        split
        · split
          · intro kv hkv
            rw [send_event_container_map] at hkv
            exact noRootList_update _ cg _ hs h0 h1 kv (by simpa using hkv)
          · intro kv hkv
            exact hs kv (by simpa using hkv)
        · intro kv hkv
          exact hs kv (by simpa using hkv)
      · unfold noRootKeys trace_process_exec
        rw [if_pos hc]
        dsimp only
        split
        · intro kv hkv
          exact noRootList_update _ cg _ hs h0 h1 kv (by simpa using hkv)
        · exact hs
    · have hc2 : is_container_process cg = false := by
        simpa using hc
      refine ⟨?_, ?_, ?_, ?_⟩ <;>
        simp [trace_container_start, trace_container_stop, kprobe_cgroup_attach,
          trace_process_exec, hc2] <;> exact hs

/-- Closed witness for `c1_root_cgroup_ignored` at cgroup id 0 on a concrete
state holding one container. -/
theorem c1_root_cgroup_ignored_witness :
    trace_container_start c1WitnessState 0 7 11 "sh" = c1WitnessState ∧
    noRootKeys (trace_container_start c1WitnessState 0 7 11 "sh") := by
  have h := c1_root_cgroup_ignored c1WitnessState 0 7 11 "sh"
  refine ⟨(h.1 (Or.inl rfl)).1, ?_⟩
  exact (h.2 (by decide)).1

/-- C2: on exit-syscall entry with a non-root cgroup id, when the container
table holds an entry for the cgroup id and the exiting pid equals its
primary pid (and the ring-buffer reservation succeeds), exactly one
container-stop event carrying status `stopped` is emitted, the container
entry and the pid entry are deleted, and all other entries are untouched;
when the pid differs or no entry exists, the state is unchanged. -/
theorem c2_exit_entry (s : KState) (cg pid now : Nat)
    (hc : is_container_process cg = true)
    (hr : s.ringbufOk = true) :
    (∀ c, lookupMap s.container_map cg = some c → c.pid = pid →
      lookupMap (trace_container_stop s cg pid now).container_map cg = none ∧
      lookupMap (trace_container_stop s cg pid now).pid_to_cgroup_map pid = none ∧
      (trace_container_stop s cg pid now).events =
        s.events ++ [{ type := EVENT_CONTAINER_STOP, timestamp := now,
                       cgroup_id := cg, pid := pid,
                       data := EventPayload.container
                         { c with status := CONTAINER_STATUS_STOPPED } }] ∧
      (∀ k2, k2 ≠ cg →
        lookupMap (trace_container_stop s cg pid now).container_map k2 =
          lookupMap s.container_map k2) ∧
      (∀ p2, p2 ≠ pid →
        lookupMap (trace_container_stop s cg pid now).pid_to_cgroup_map p2 =
          lookupMap s.pid_to_cgroup_map p2)) ∧
    (∀ c, lookupMap s.container_map cg = some c → c.pid ≠ pid →
      trace_container_stop s cg pid now = s) ∧
    (lookupMap s.container_map cg = none →
      trace_container_stop s cg pid now = s) := by
  refine ⟨?_, ?_, ?_⟩
  · intro c hlc hp
    have hstep : trace_container_stop s cg pid now =
        { container_map :=
            deleteMap (updateMap s.container_map cg
              { c with status := CONTAINER_STATUS_STOPPED }) cg,
          pid_to_cgroup_map := deleteMap s.pid_to_cgroup_map pid,
          events := s.events ++
            [{ type := EVENT_CONTAINER_STOP, timestamp := now,
               cgroup_id := cg, pid := pid,
               data := EventPayload.container
                 { c with status := CONTAINER_STATUS_STOPPED } }],
          stats_map := update_stats (update_stats s.stats_map STAT_EVENTS_SENT)
            STAT_CONTAINERS_STOPPED,
          ringbufOk := s.ringbufOk } := by
      unfold trace_container_stop
      rw [if_pos hc]
      simp only [hlc]
      rw [if_pos hp]
      unfold send_event
      rw [if_pos hr]
    refine ⟨?_, ?_, ?_, ?_, ?_⟩
    · rw [hstep]
      exact lookup_deleteMap_self _ _
    · rw [hstep]
      exact lookup_deleteMap_self _ _
    · rw [hstep]
    · intro k2 hk2
      rw [hstep]
      show lookupMap (deleteMap (updateMap s.container_map cg _) cg) k2 = _
      rw [lookup_deleteMap_ne _ _ _ hk2, lookup_updateMap_ne _ _ _ _ hk2]
    · intro p2 hp2
      rw [hstep]
      exact lookup_deleteMap_ne _ _ _ hp2
  · intro c hlc hp
    unfold trace_container_stop
    rw [if_pos hc]
    simp only [hlc]
    rw [if_neg hp]
  · intro hlc
    unfold trace_container_stop
    rw [if_pos hc]
    simp only [hlc]

/-- Closed witness for `c2_exit_entry`: the concrete container (cgroup 5,
pid 7) is stopped, deleted from both maps, and one stop event is emitted. -/
theorem c2_exit_entry_witness :
    lookupMap (trace_container_stop c1WitnessState 5 7 9).container_map 5 = none ∧
    lookupMap (trace_container_stop c1WitnessState 5 7 9).pid_to_cgroup_map 7 = none ∧
    (trace_container_stop c1WitnessState 5 7 9).events =
      c1WitnessState.events ++
        [{ type := EVENT_CONTAINER_STOP, timestamp := 9, cgroup_id := 5, pid := 7,
           data := EventPayload.container
             { witnessContainer with status := CONTAINER_STATUS_STOPPED } }] := by
  have h := c2_exit_entry c1WitnessState 5 7 9 (by decide) (by rfl)
  have h1 := h.1 witnessContainer (by rfl) (by rfl)
  exact ⟨h1.1, h1.2.1, h1.2.2.1⟩

end Microradar

namespace Microradar

/-- C3: `Monitor.Start` while the monitor already runs returns an error and
leaves the whole monitor state unchanged, whatever the environment;
`Monitor.Stop` while not running returns success (nil error) and leaves the
state unchanged. -/
theorem c3_start_stop_idempotent (env : StartEnv) (m : MonitorState) :
    (m.running = true →
      monitorStart env m = (Except.error "监控器已在运行", m)) ∧
    (m.running = false → monitorStop m = (Except.ok (), m)) := by
  constructor
  · intro h
    unfold monitorStart
    rw [if_pos h]
  · intro h
    unfold monitorStop
    rw [if_pos h]

/-- Closed witness for `c3_start_stop_idempotent` on concrete monitor
states. -/
theorem c3_start_stop_idempotent_witness :
    monitorStart { loadOk := true, attachOk := true, processorOk := true,
                   now := 99, attachedLinks := 6 } runningMonitor =
      (Except.error "监控器已在运行", runningMonitor) ∧
    monitorStop stoppedMonitor = (Except.ok (), stoppedMonitor) := by
  have h1 := c3_start_stop_idempotent
    { loadOk := true, attachOk := true, processorOk := true,
      now := 99, attachedLinks := 6 } runningMonitor
  have h2 := c3_start_stop_idempotent
    { loadOk := true, attachOk := true, processorOk := true,
      now := 99, attachedLinks := 6 } stoppedMonitor
  exact ⟨h1.1 rfl, h2.2 rfl⟩

end Microradar

namespace Microradar.Agg

theorem calculateCPUStats_cpuSamples (c : AggContainer) :
    (calculateCPUStats c).cpuSamples = c.cpuSamples := by
  unfold calculateCPUStats; split <;> rfl

theorem calculateCPUStats_memorySamples (c : AggContainer) :
    (calculateCPUStats c).memorySamples = c.memorySamples := by
  unfold calculateCPUStats; split <;> rfl

theorem calculateMemoryStats_cpuSamples (c : AggContainer) :
    (calculateMemoryStats c).cpuSamples = c.cpuSamples := by
  unfold calculateMemoryStats; split <;> rfl

theorem calculateMemoryStats_memorySamples (c : AggContainer) :
    (calculateMemoryStats c).memorySamples = c.memorySamples := by
  unfold calculateMemoryStats; split <;> rfl

theorem ringAppendBound {α : Type} (l : List α) (x : α) (h : l.length ≤ 100) :
    (if (l ++ [x]).length > 100 then (l ++ [x]).drop 1 else l ++ [x]).length
      ≤ 100 := by
  by_cases hc : (l ++ [x]).length > 100
  · rw [if_pos hc]
    simp only [List.length_drop, List.length_append, List.length_singleton]
    omega
  · rw [if_neg hc]
    simp only [List.length_append, List.length_singleton] at hc ⊢
    omega

theorem ringAppendFull {α : Type} (l : List α) (x : α) (h : l.length = 100) :
    (if (l ++ [x]).length > 100 then (l ++ [x]).drop 1 else l ++ [x]) =
      l.drop 1 ++ [x] := by
  have hc : (l ++ [x]).length > 100 := by
    simp only [List.length_append, List.length_singleton, h]
    omega
  rw [if_pos hc]
  rw [List.drop_append_of_le_length (by omega)]

theorem samplesBounded_applySample (A : List (Nat × AggContainer))
    (e : SampleEvent) (h : samplesBounded A) :
    samplesBounded (applySample A e) := by
  cases e with
  | cpu cg now =>
    show samplesBounded (cpuSampleHandleEvent A cg now)
    unfold cpuSampleHandleEvent
    cases hl : lookupMap A cg with
    | none => exact h
    | some c =>
      intro kv hkv
      rcases mem_updateMap _ _ _ kv hkv with hm | he
      · exact h kv hm
      · have hbound := h (cg, c) (lookup_some_mem _ _ _ hl)
        rw [he]
        refine ⟨?_, ?_⟩
        · show (calculateCPUStats
            { c with cpuSamples :=
                if (c.cpuSamples ++ [(50 : ℚ)]).length > 100 then
                  (c.cpuSamples ++ [(50 : ℚ)]).drop 1
                else c.cpuSamples ++ [(50 : ℚ)] }).cpuSamples.length ≤ 100
          rw [calculateCPUStats_cpuSamples]
          exact ringAppendBound c.cpuSamples 50 hbound.1
        · show (calculateCPUStats _).memorySamples.length ≤ 100
          rw [calculateCPUStats_memorySamples]
          exact hbound.2
  | mem cg now =>
    show samplesBounded (memorySampleHandleEvent A cg now)
    unfold memorySampleHandleEvent
    cases hl : lookupMap A cg with
    | none => exact h
    | some c =>
      intro kv hkv
      rcases mem_updateMap _ _ _ kv hkv with hm | he
      · exact h kv hm
      · have hbound := h (cg, c) (lookup_some_mem _ _ _ hl)
        rw [he]
        refine ⟨?_, ?_⟩
        · show (calculateMemoryStats _).cpuSamples.length ≤ 100
          rw [calculateMemoryStats_cpuSamples]
          exact hbound.1
        · show (calculateMemoryStats
            { c with memorySamples :=
                if (c.memorySamples ++ [512 * 1024 * 1024]).length > 100 then
                  (c.memorySamples ++ [512 * 1024 * 1024]).drop 1
                else c.memorySamples ++ [512 * 1024 * 1024] }).memorySamples.length
              ≤ 100
          rw [calculateMemoryStats_memorySamples]
          exact ringAppendBound c.memorySamples _ hbound.2

/-- C4: over any sequence of CPU-sample and memory-sample events, every
aggregated record keeps at most 100 CPU samples and at most 100 memory
samples; when a ring is full, the handler drops the oldest sample and
appends the new one. -/
theorem c4_sample_rings_bounded (A : List (Nat × AggContainer))
    (evs : List SampleEvent) (cg now : Nat) (c : AggContainer) :
    (samplesBounded A → samplesBounded (evs.foldl applySample A)) ∧
    (lookupMap A cg = some c → c.cpuSamples.length = 100 →
      Option.map AggContainer.cpuSamples
          (lookupMap (cpuSampleHandleEvent A cg now) cg) =
        some (c.cpuSamples.drop 1 ++ [50])) ∧
    (lookupMap A cg = some c → c.memorySamples.length = 100 →
      Option.map AggContainer.memorySamples
          (lookupMap (memorySampleHandleEvent A cg now) cg) =
        some (c.memorySamples.drop 1 ++ [512 * 1024 * 1024])) := by
  refine ⟨?_, ?_, ?_⟩
  · intro h
    induction evs generalizing A with
    | nil => exact h
    | cons e rest ih =>
      exact ih (applySample A e) (samplesBounded_applySample A e h)
  · intro hlk hfull
    unfold cpuSampleHandleEvent
    simp only [hlk]
    rw [lookup_updateMap_self]
    refine congrArg some ?_
    show (calculateCPUStats _).cpuSamples = _
    rw [calculateCPUStats_cpuSamples]
    exact ringAppendFull c.cpuSamples 50 hfull
  · intro hlk hfull
    unfold memorySampleHandleEvent
    simp only [hlk]
    rw [lookup_updateMap_self]
    refine congrArg some ?_
    show (calculateMemoryStats _).memorySamples = _
    rw [calculateMemoryStats_memorySamples]
    exact ringAppendFull c.memorySamples _ hfull

/-- Closed witness for `c4_sample_rings_bounded`: a full 100-sample record
stays bounded and sheds its oldest sample. -/
theorem c4_sample_rings_bounded_witness :
    samplesBounded ([SampleEvent.cpu 5 9, SampleEvent.mem 5 9].foldl
      applySample aggWitnessTable) ∧
    Option.map AggContainer.cpuSamples
        (lookupMap (cpuSampleHandleEvent aggWitnessTable 5 9) 5) =
      some ((List.replicate 100 (10 : ℚ)).drop 1 ++ [50]) ∧
    Option.map AggContainer.memorySamples
        (lookupMap (memorySampleHandleEvent aggWitnessTable 5 9) 5) =
      some ((List.replicate 100 64).drop 1 ++ [512 * 1024 * 1024]) := by
  have h := c4_sample_rings_bounded aggWitnessTable
    [SampleEvent.cpu 5 9, SampleEvent.mem 5 9] 5 9 agg100Record
  refine ⟨h.1 ?_, ?_, ?_⟩
  · intro kv hkv
    have : kv = (5, agg100Record) := by simpa [aggWitnessTable] using hkv
    rw [this]
    constructor <;> simp [agg100Record, aggWitnessRecord]
  · have := h.2.1 (by rfl) (by simp [agg100Record, aggWitnessRecord])
    simpa [agg100Record, aggWitnessRecord] using this
  · have := h.2.2 (by rfl) (by simp [agg100Record, aggWitnessRecord])
    simpa [agg100Record, aggWitnessRecord] using this

end Microradar.Agg

namespace Microradar.Net

/-- C5 counterexample: on three flows of the same cgroup with per-flow mean
latencies 1 ms, 2 ms and 3 ms, the code reports the pairwise running
average 2.25 ms, not the arithmetic mean 2 ms claimed by the spec. -/
theorem c5_mean_latency_counterexample :
    (calculateNetworkMetrics 5 c5Flows).avgLatency ≠ specMeanLatencyMs 5 c5Flows ∧
    (calculateNetworkMetrics 5 c5Flows).avgLatency = 9 / 4 ∧
    specMeanLatencyMs 5 c5Flows = 2 := by
  have h1 : (calculateNetworkMetrics 5 c5Flows).avgLatency = 9 / 4 := by
    norm_num [calculateNetworkMetrics, calcNetworkStep, c5Flows, c5Flow]
  have h2 : specMeanLatencyMs 5 c5Flows = 2 := by
    norm_num [specMeanLatencyMs, c5Flows, c5Flow]
  refine ⟨?_, h1, h2⟩
  rw [h1, h2]
  norm_num

/-- C5 amended: for a single matching flow with `latency_count > 0` the code
does report `latency_sum / latency_count / 1_000_000` milliseconds (with
several matching flows the value is the left-to-right pairwise running
average, not the arithmetic mean). -/
theorem c5_single_flow_latency (cg : Nat) (key : FlowKey) (stats : FlowStats)
    (hk : key.cgroup_id = cg) (hcount : stats.latency_count > 0) :
    (calculateNetworkMetrics cg [(key, stats)]).avgLatency =
      (stats.latency_sum : ℚ) / (stats.latency_count : ℚ) / 1000000 := by
  unfold calculateNetworkMetrics
  simp only [List.foldl]
  unfold calcNetworkStep
  rw [if_pos (show ((key, stats).1).cgroup_id = cg from hk)]
  rw [if_pos (show (key, stats).2.latency_count > 0 from hcount)]
  rw [if_pos rfl]

/-- Closed witness for `c5_single_flow_latency`: one flow with
`latency_sum = 5_000_000` ns and `latency_count = 1` reports 5.0 ms. -/
theorem c5_single_flow_latency_witness :
    (calculateNetworkMetrics 5 [c5Flow 5000000]).avgLatency = 5 := by
  have h := c5_single_flow_latency 5 (c5Flow 5000000).1 (c5Flow 5000000).2
    (by rfl) (by decide)
  exact h.trans (by norm_num [c5Flow])

end Microradar.Net

namespace Microradar.Config

/-- C6: `Load` does NOT succeed on a config that omits the alert
thresholds and the sampling rate — `Validate` runs before `SetDefaults`,
so the zero values are rejected (first by the sampling-rate check) even
though `SetDefaults` would have installed exactly the documented defaults
(sampling_rate 2s, cpu 70, memory 80, network_latency 10) and the
defaulted config would validate. -/
theorem c6_load_rejects_omitted_defaults :
    load c6Config =
      Except.error "配置验证失败: 监控目标[0]采样间隔不能小于1秒" ∧
    validate (setDefaults c6Config) = none ∧
    (setDefaults c6Config).monitoring.alertThresholds.cpu = 70 ∧
    (setDefaults c6Config).monitoring.alertThresholds.memory = 80 ∧
    (setDefaults c6Config).monitoring.alertThresholds.networkLatency = 10 ∧
    (setDefaults c6Config).monitoring.targets.map TargetConfig.samplingRate =
      [2 * timeSecond] := by
  exact ⟨rfl, rfl, rfl, rfl, rfl, rfl⟩

end Microradar.Config

namespace Microradar.Resolver

theorem leadsWith_nil_of_ne (sep : List Char) (hsep : sep ≠ []) :
    leadsWith sep [] = false := by
  cases sep with
  | nil => exact absurd rfl hsep
  | cons a as => rfl

theorem splitOnAux_length_pos (sep : List Char) (fuel : Nat) :
    ∀ l acc, 0 < (splitOnAux sep fuel l acc).length := by
  induction fuel with
  | zero => intro l acc; simp [splitOnAux]
  | succ fuel ih =>
    intro l acc
    cases l with
    | nil => simp [splitOnAux]
    | cons c rest =>
      unfold splitOnAux
      by_cases hl : leadsWith sep (c :: rest) = true
      · rw [if_pos hl]
        simp
      · rw [if_neg hl]
        exact ih rest (c :: acc)

theorem containsAux_iff_splitOnAux (sep : List Char) (hsep : sep ≠ [])
    (fuel : Nat) : ∀ l acc, l.length ≤ fuel →
    (containsAux sep fuel l = true ↔ 1 < (splitOnAux sep fuel l acc).length) := by
  induction fuel with
  | zero =>
    intro l acc hlen
    have hnil : l = [] := List.eq_nil_of_length_eq_zero (Nat.le_zero.mp hlen)
    subst hnil
    unfold containsAux splitOnAux
    rw [leadsWith_nil_of_ne sep hsep]
    simp
  | succ fuel ih =>
    intro l acc hlen
    cases l with
    | nil =>
      unfold containsAux splitOnAux
      rw [if_neg (by rw [leadsWith_nil_of_ne sep hsep]; exact Bool.false_ne_true)]
      simp
    | cons c rest =>
      unfold containsAux splitOnAux
      by_cases hl : leadsWith sep (c :: rest) = true
      · rw [if_pos hl, if_pos hl]
        simp only [List.length_cons, true_iff]
        have := splitOnAux_length_pos sep fuel ((c :: rest).drop sep.length) []
        omega
      · rw [if_neg hl, if_neg hl]
        exact ih rest (c :: acc)
          (by simpa using Nat.le_of_succ_le_succ hlen)

theorem strContains_iff_goSplit (s sub : String)
    (hsub : sub.toList ≠ []) :
    (strContains s sub = true ↔ 1 < (goSplit s sub).length) := by
  unfold strContains goSplit
  rw [List.length_map]
  exact containsAux_iff_splitOnAux sub.toList hsub s.toList.length s.toList []
    (Nat.le_refl _)

/-- C7 amended: a line containing the primary signature (`/docker/`,
`/containerd/`, `/crio-`) is classified for that runtime and its extracted
id is the trimmed segment following the first occurrence of that
signature; a line matching only the secondary signature (`/docker-`,
`/k8s.io/`, `/crio/`) is classified but yields an empty id, so
`parseCgroupFile` skips it and returns no record; a line matching no
signature is skipped. -/
theorem c7_signature_extraction (line : String) (pid : Nat) :
    (strContains line "/docker/" = true →
      isContainerCgroup line "docker" = true ∧
      extractContainerID line "docker" =
        goTrim ((goSplit line "/docker/").getD 1 "")) ∧
    (strContains line "/containerd/" = true →
      isContainerCgroup line "containerd" = true ∧
      extractContainerID line "containerd" =
        goTrim ((goSplit line "/containerd/").getD 1 "")) ∧
    (strContains line "/crio-" = true →
      isContainerCgroup line "cri-o" = true ∧
      extractContainerID line "cri-o" =
        goTrim ((goSplit line "/crio-").getD 1 "")) ∧
    (strContains line "/docker/" = false → strContains line "/docker-" = true →
      isContainerCgroup line "docker" = true ∧
      extractContainerID line "docker" = "" ∧
      classifyLine line "docker" pid = none) ∧
    (strContains line "/containerd/" = false →
        strContains line "/k8s.io/" = true →
      isContainerCgroup line "containerd" = true ∧
      extractContainerID line "containerd" = "" ∧
      classifyLine line "containerd" pid = none) ∧
    (strContains line "/crio-" = false → strContains line "/crio/" = true →
      isContainerCgroup line "cri-o" = true ∧
      extractContainerID line "cri-o" = "" ∧
      classifyLine line "cri-o" pid = none) ∧
    (isContainerCgroup line "docker" = false →
      classifyLine line "docker" pid = none) ∧
    (isContainerCgroup line "containerd" = false →
      classifyLine line "containerd" pid = none) ∧
    (isContainerCgroup line "cri-o" = false →
      classifyLine line "cri-o" pid = none) := by
  refine ⟨?_, ?_, ?_, ?_, ?_, ?_, ?_, ?_, ?_⟩
  · intro h
    constructor
    · unfold isContainerCgroup
      rw [if_pos rfl, h]
      rfl
    · unfold extractContainerID
      rw [if_pos rfl]
      have hgt := (strContains_iff_goSplit line "/docker/" (by decide)).mp h
      rw [if_pos hgt]
  · intro h
    constructor
    · unfold isContainerCgroup
      rw [if_neg (by decide), if_pos rfl, h]
      rfl
    · unfold extractContainerID
      rw [if_neg (by decide), if_pos rfl]
      have hgt := (strContains_iff_goSplit line "/containerd/" (by decide)).mp h
      rw [if_pos hgt]
  · intro h
    constructor
    · unfold isContainerCgroup
      rw [if_neg (by decide), if_neg (by decide), if_pos rfl, h]
      rfl
    · unfold extractContainerID
      rw [if_neg (by decide), if_neg (by decide), if_pos rfl]
      have hgt := (strContains_iff_goSplit line "/crio-" (by decide)).mp h
      rw [if_pos hgt]
  · intro h0 h1
    have hcls : isContainerCgroup line "docker" = true := by
      unfold isContainerCgroup
      rw [if_pos rfl, h0, h1]
      rfl
    have hext : extractContainerID line "docker" = "" := by
      unfold extractContainerID
      rw [if_pos rfl]
      have hgt := (strContains_iff_goSplit line "/docker/" (by decide))
      rw [if_neg (by rw [h0] at hgt; simpa using hgt)]
    refine ⟨hcls, hext, ?_⟩
    unfold classifyLine
    rw [if_pos hcls, if_neg (by rw [hext]; simp)]
  · intro h0 h1
    have hcls : isContainerCgroup line "containerd" = true := by
      unfold isContainerCgroup
      rw [if_neg (by decide), if_pos rfl, h0, h1]
      rfl
    have hext : extractContainerID line "containerd" = "" := by
      unfold extractContainerID
      rw [if_neg (by decide), if_pos rfl]
      have hgt := (strContains_iff_goSplit line "/containerd/" (by decide))
      rw [if_neg (by rw [h0] at hgt; simpa using hgt)]
    refine ⟨hcls, hext, ?_⟩
    unfold classifyLine
    rw [if_pos hcls, if_neg (by rw [hext]; simp)]
  · intro h0 h1
    have hcls : isContainerCgroup line "cri-o" = true := by
      unfold isContainerCgroup
      rw [if_neg (by decide), if_neg (by decide), if_pos rfl, h0, h1]
      rfl
    have hext : extractContainerID line "cri-o" = "" := by
      unfold extractContainerID
      rw [if_neg (by decide), if_neg (by decide), if_pos rfl]
      have hgt := (strContains_iff_goSplit line "/crio-" (by decide))
      rw [if_neg (by rw [h0] at hgt; simpa using hgt)]
    refine ⟨hcls, hext, ?_⟩
    unfold classifyLine
    rw [if_pos hcls, if_neg (by rw [hext]; simp)]
  · intro h
    unfold classifyLine
    rw [if_neg (by rw [h]; exact Bool.false_ne_true)]
  · intro h
    unfold classifyLine
    rw [if_neg (by rw [h]; exact Bool.false_ne_true)]
  · intro h
    unfold classifyLine
    rw [if_neg (by rw [h]; exact Bool.false_ne_true)]

/-- Closed witness for `c7_signature_extraction` on the line
`0::/docker/abc123`. -/
theorem c7_signature_extraction_witness :
    isContainerCgroup "0::/docker/abc123" "docker" = true ∧
    extractContainerID "0::/docker/abc123" "docker" =
      goTrim ((goSplit "0::/docker/abc123" "/docker/").getD 1 "") ∧
    extractContainerID "0::/docker/abc123" "docker" = "abc123" := by
  have h := (c7_signature_extraction "0::/docker/abc123" 42).1 (by decide)
  exact ⟨h.1, h.2, by decide⟩

/-- C7 counterexample: the systemd-style line
`4:cpu:/system.slice/docker-abc123.scope` matches the `/docker-` signature
and is classified as docker, but `extractContainerID` (which only splits
on `/docker/`) returns the empty string, so no record is produced —
against the claim that a record with the id following `/docker-` is
returned. -/
theorem c7_secondary_signature_skipped :
    isContainerCgroup "4:cpu:/system.slice/docker-abc123.scope" "docker"
      = true ∧
    extractContainerID "4:cpu:/system.slice/docker-abc123.scope" "docker"
      = "" ∧
    classifyLine "4:cpu:/system.slice/docker-abc123.scope" "docker" 42
      = none := by
  exact ⟨by decide, by decide, by decide⟩

end Microradar.Resolver

namespace Microradar.Daemon

theorem leadsWith_append_of_le (sep l1 l2 : List Char)
    (h : sep.length ≤ l1.length) :
    Resolver.leadsWith sep (l1 ++ l2) = Resolver.leadsWith sep l1 := by
  induction sep generalizing l1 with
  | nil => rfl
  | cons a as ih =>
    cases l1 with
    | nil => simp at h
    | cons b bs =>
      simp only [List.cons_append]
      show (a == b && Resolver.leadsWith as (bs ++ l2)) =
        (a == b && Resolver.leadsWith as bs)
      rw [ih bs (by simpa using Nat.le_of_succ_le_succ h)]

theorem string_toList_append (s t : String) :
    (s ++ t).toList = s.toList ++ t.toList := by
  cases s
  cases t
  rfl

/-- C8 counterexample: with no current containers, the handler of
`daemon_server.go` emits the metric lines `microradar_containers_total 0`
and `microradar_memory_usage_bytes 0` — not the single line
`microradar_up 0`; no line of its output even starts with
`microradar_up`. -/
theorem c8_no_up_line_counterexample :
    metricLines (metricsHandler daemonEmptyMetrics) =
      ["microradar_containers_total 0", "microradar_memory_usage_bytes 0"] ∧
    metricLines (metricsHandler daemonEmptyMetrics) ≠ ["microradar_up 0"] ∧
    (∀ l ∈ metricsHandler daemonEmptyMetrics,
      Resolver.leadsWith "microradar_up".toList l.toList = false) := by
  refine ⟨by decide, by decide, by decide⟩

/-- C8 amended: when no containers have been observed, the handler emits
exactly the two HELP/TYPE comment pairs and the two metric lines
`microradar_containers_total 0` and `microradar_memory_usage_bytes <mem>`,
and never emits a `microradar_up` line. -/
theorem c8_empty_metrics_output (m : Metrics) (h : m.containers = []) :
    metricsHandler m =
      [ "# HELP microradar_containers_total 监控的容器总数",
        "# TYPE microradar_containers_total gauge",
        "microradar_containers_total 0",
        "# HELP microradar_memory_usage_bytes 内存使用量",
        "# TYPE microradar_memory_usage_bytes gauge",
        "microradar_memory_usage_bytes " ++ toString m.systemMemory ] ∧
    (∀ l ∈ metricsHandler m,
      Resolver.leadsWith "microradar_up".toList l.toList = false) := by
  have hout : metricsHandler m =
      [ "# HELP microradar_containers_total 监控的容器总数",
        "# TYPE microradar_containers_total gauge",
        "microradar_containers_total 0",
        "# HELP microradar_memory_usage_bytes 内存使用量",
        "# TYPE microradar_memory_usage_bytes gauge",
        "microradar_memory_usage_bytes " ++ toString m.systemMemory ] := by
    unfold metricsHandler
    rw [h]
    rfl
  refine ⟨hout, ?_⟩
  rw [hout]
  intro l hl
  simp only [List.mem_cons, List.not_mem_nil, or_false] at hl
  rcases hl with h1 | h1 | h1 | h1 | h1 | h1 <;> subst h1
  · decide
  · decide
  · decide
  · decide
  · decide
  · rw [string_toList_append]
    rw [leadsWith_append_of_le _ _ _ (by decide)]
    decide

/-- Closed witness for `c8_empty_metrics_output` at the empty metrics
value. -/
theorem c8_empty_metrics_output_witness :
    metricsHandler daemonEmptyMetrics =
      [ "# HELP microradar_containers_total 监控的容器总数",
        "# TYPE microradar_containers_total gauge",
        "microradar_containers_total 0",
        "# HELP microradar_memory_usage_bytes 内存使用量",
        "# TYPE microradar_memory_usage_bytes gauge",
        "microradar_memory_usage_bytes "
          ++ toString daemonEmptyMetrics.systemMemory ] ∧
    (∀ l ∈ metricsHandler daemonEmptyMetrics,
      Resolver.leadsWith "microradar_up".toList l.toList = false) :=
  c8_empty_metrics_output daemonEmptyMetrics rfl

end Microradar.Daemon

namespace Microradar.Heap

theorem getD_set_ne {α : Type} (l : List α) (i j : Nat) (v d : α)
    (h : i ≠ j) : (l.set i v).getD j d = l.getD j d := by
  induction l generalizing i j with
  | nil => rfl
  | cons a rest ih =>
    cases i with
    | zero =>
      cases j with
      | zero => exact absurd rfl h
      | succ j2 => rfl
    | succ i2 =>
      cases j with
      | zero => rfl
      | succ j2 =>
        show (rest.set i2 v).getD j2 d = rest.getD j2 d
        exact ih i2 j2 (fun hc => h (by rw [hc]))

theorem getD_append_lt {α : Type} (l1 l2 : List α) (i : Nat) (d : α)
    (h : i < l1.length) : (l1 ++ l2).getD i d = l1.getD i d := by
  induction l1 generalizing i with
  | nil => simp at h
  | cons a rest ih =>
    cases i with
    | zero => rfl
    | succ i2 => exact ih i2 (Nat.lt_of_succ_lt_succ h)

theorem getD_append_self {α : Type} (l : List α) (x d : α) :
    (l ++ [x]).getD l.length d = x := by
  induction l with
  | nil => rfl
  | cons a rest ih => exact ih

theorem getMetrics_copy_reads (X : MonitorHeap) :
    readSlab (getMetrics X).2.store (getMetrics X).1.containersRef =
      readSlab X.store X.metricsRef.containersRef := by
  show (X.store.slabs ++ [readSlab X.store X.metricsRef.containersRef]).getD
      X.store.slabs.length [] = readSlab X.store X.metricsRef.containersRef
  exact getD_append_self _ _ _

/-- C9: `GetMetrics` returns a deep copy — the returned containers slice
lives at a fresh address whose contents equal the monitor's, the
monitor's view is unchanged by the call, writing any element of the
returned slice leaves the monitor's view unchanged, and a subsequent
`GetMetrics` after such a write still returns the original container
values. -/
theorem c9_get_metrics_deep_copy (mh : MonitorHeap)
    (h : mh.metricsRef.containersRef < mh.store.slabs.length) :
    (getMetrics mh).1.containersRef ≠
      (getMetrics mh).2.metricsRef.containersRef ∧
    viewMetrics (getMetrics mh).2 = viewMetrics mh ∧
    readSlab (getMetrics mh).2.store (getMetrics mh).1.containersRef =
      readSlab mh.store mh.metricsRef.containersRef ∧
    (∀ i v, viewMetrics (mutateReturned mh i v) = viewMetrics mh) ∧
    (∀ i v,
      readSlab (getMetrics (mutateReturned mh i v)).2.store
          (getMetrics (mutateReturned mh i v)).1.containersRef =
        readSlab mh.store mh.metricsRef.containersRef) := by
  have hread : readSlab (getMetrics mh).2.store mh.metricsRef.containersRef =
      readSlab mh.store mh.metricsRef.containersRef := by
    show (mh.store.slabs ++
        [readSlab mh.store mh.metricsRef.containersRef]).getD
        mh.metricsRef.containersRef [] = _
    exact getD_append_lt _ _ _ _ h
  have hmutread : ∀ i v,
      readSlab (mutateReturned mh i v).store mh.metricsRef.containersRef =
        readSlab mh.store mh.metricsRef.containersRef := by
    intro i v
    show ((mh.store.slabs ++
        [readSlab mh.store mh.metricsRef.containersRef]).set
          mh.store.slabs.length _).getD mh.metricsRef.containersRef [] = _
    rw [getD_set_ne _ _ _ _ _ (Ne.symm (Nat.ne_of_lt h))]
    exact hread
  refine ⟨Ne.symm (Nat.ne_of_lt h), ?_, getMetrics_copy_reads mh, ?_, ?_⟩
  · show Metrics.mk
      (readSlab (getMetrics mh).2.store mh.metricsRef.containersRef)
      mh.metricsRef.systemMemory mh.metricsRef.ebpfMapsCount
      mh.metricsRef.lastUpdate = viewMetrics mh
    rw [hread]
    rfl
  · intro i v
    show Metrics.mk
      (readSlab (mutateReturned mh i v).store mh.metricsRef.containersRef)
      mh.metricsRef.systemMemory mh.metricsRef.ebpfMapsCount
      mh.metricsRef.lastUpdate = viewMetrics mh
    rw [hmutread i v]
    rfl
  · intro i v
    rw [getMetrics_copy_reads (mutateReturned mh i v)]
    exact hmutread i v

/-- Closed witness for `c9_get_metrics_deep_copy` on the one-container
heap, mutating element 0 of the returned slice. -/
theorem c9_get_metrics_deep_copy_witness :
    (getMetrics heapWitness).1.containersRef ≠
      (getMetrics heapWitness).2.metricsRef.containersRef ∧
    viewMetrics (mutateReturned heapWitness 0 heapWitnessMutation) =
      viewMetrics heapWitness ∧
    readSlab
        (getMetrics (mutateReturned heapWitness 0 heapWitnessMutation)).2.store
        (getMetrics
          (mutateReturned heapWitness 0 heapWitnessMutation)).1.containersRef =
      readSlab heapWitness.store heapWitness.metricsRef.containersRef := by
  have h := c9_get_metrics_deep_copy heapWitness (by decide)
  exact ⟨h.1, h.2.2.2.1 0 heapWitnessMutation, h.2.2.2.2 0 heapWitnessMutation⟩

end Microradar.Heap

namespace Microradar.Pool

theorem poolGet_nil {α : Type} (factory : Unit → α) (p : ObjectPool α)
    (h : p.objects = []) :
    poolGet factory p =
      (factory (),
       { p with misses := p.misses + 1, created := p.created + 1 }) := by
  unfold poolGet
  rw [h]

theorem poolGet_cons {α : Type} (factory : Unit → α) (p : ObjectPool α)
    (o : α) (tail : List α) (h : p.objects = o :: tail) :
    poolGet factory p =
      (o, { p with objects := tail, hits := p.hits + 1 }) := by
  unfold poolGet
  rw [h]

theorem poolPut_some {α : Type} (reset : α → α) (p : ObjectPool α) (o : α) :
    poolPut reset p (some o) =
      if p.objects.length < p.maxSize then
        { p with objects := p.objects ++ [reset o] }
      else p := rfl

theorem poolFold_bounded {α : Type} (factory : Unit → α) (reset : α → α)
    (ops : List (PoolOp α)) :
    ∀ p : ObjectPool α, poolBounded p →
      poolBounded (ops.foldl (applyPoolOp factory reset) p) ∧
      (ops.foldl (applyPoolOp factory reset) p).maxSize = p.maxSize := by
  induction ops with
  | nil => exact fun p h => ⟨h, rfl⟩
  | cons op rest ih =>
    intro p h
    have hstep : poolBounded (applyPoolOp factory reset p op) ∧
        (applyPoolOp factory reset p op).maxSize = p.maxSize := by
      cases op with
      | get =>
        show poolBounded (poolGet factory p).2 ∧
          (poolGet factory p).2.maxSize = p.maxSize
        cases hpo : p.objects with
        | nil =>
          rw [poolGet_nil factory p hpo]
          exact ⟨h, rfl⟩
        | cons o tail =>
          rw [poolGet_cons factory p o tail hpo]
          refine ⟨?_, rfl⟩
          unfold poolBounded at h ⊢
          rw [hpo] at h
          simp only [List.length_cons] at h
          show tail.length ≤ p.maxSize
          omega
      | put obj =>
        cases obj with
        | none => exact ⟨h, rfl⟩
        | some o =>
          show poolBounded (poolPut reset p (some o)) ∧
            (poolPut reset p (some o)).maxSize = p.maxSize
          rw [poolPut_some]
          by_cases hlen : p.objects.length < p.maxSize
          · rw [if_pos hlen]
            refine ⟨?_, rfl⟩
            unfold poolBounded
            show (p.objects ++ [reset o]).length ≤ p.maxSize
            simp only [List.length_append, List.length_singleton]
            omega
          · rw [if_neg hlen]
            exact ⟨h, rfl⟩
    have hrest := ih (applyPoolOp factory reset p op) hstep.1
    exact ⟨hrest.1, hrest.2.trans hstep.2⟩

/-- C10: starting from `CreatePool`, any sequence of `Get`/`Put`
operations leaves at most `maxSize` objects in the pool; `Put` on a full
pool leaves the pool unchanged (the reset object is discarded); `Put` of
nil is a no-op; `Get` on an empty pool returns the value constructed by
the factory (never a pooled nil: nil is rejected before storage). -/
theorem c10_object_pool (α : Type) (factory : Unit → α) (reset : α → α)
    (maxSize : Nat) (ops : List (PoolOp α)) (p : ObjectPool α) (obj : α) :
    (ops.foldl (applyPoolOp factory reset)
        (createPool α maxSize)).objects.length ≤ maxSize ∧
    (p.maxSize ≤ p.objects.length → poolPut reset p (some obj) = p) ∧
    poolPut reset p none = p ∧
    (p.objects = [] →
      poolGet factory p =
        (factory (),
         { p with misses := p.misses + 1, created := p.created + 1 })) := by
  refine ⟨?_, ?_, ?_, ?_⟩
  · have hfold := poolFold_bounded factory reset ops (createPool α maxSize)
      (by show (0 : Nat) ≤ maxSize; omega)
    have := hfold.1
    unfold poolBounded at this
    rw [hfold.2] at this
    exact this
  · intro hge
    rw [poolPut_some, if_neg (Nat.not_lt.mpr hge)]
  · rfl
  · intro hobj
    exact poolGet_nil factory p hobj

/-- Closed witness for `c10_object_pool`: three puts into a capacity-2
pool keep at most 2 objects; a put into the full pool and a nil put are
no-ops; a get from the empty pool calls the factory. -/
theorem c10_object_pool_witness :
    ([PoolOp.put (some 1), PoolOp.put (some 2), PoolOp.put (some 3),
        PoolOp.get].foldl
      (applyPoolOp (fun _ => (7 : Nat)) (fun x => x))
      (createPool Nat 2)).objects.length ≤ 2 ∧
    poolPut (fun x => x) fullNatPool (some 9) = fullNatPool ∧
    poolPut (fun x => x) fullNatPool none = fullNatPool ∧
    poolGet (fun _ => (7 : Nat)) (createPool Nat 2) =
      (7, { createPool Nat 2 with misses := 1, created := 1 }) := by
  have h := c10_object_pool Nat (fun _ => 7) (fun x => x) 2
    [PoolOp.put (some 1), PoolOp.put (some 2), PoolOp.put (some 3),
      PoolOp.get] fullNatPool 9
  have h2 := c10_object_pool Nat (fun _ => 7) (fun x => x) 2 []
    (createPool Nat 2) 9
  exact ⟨h.1, h.2.1 (by decide), h.2.2.1, h2.2.2.2 rfl⟩

end Microradar.Pool
